import Mathlib

/-!
Shallow embedding of `topen.py` (taskwarrior note opener).

Conventions of the embedding:
* Python values flowing through the settings dictionaries are `str`, `bool`
  (the argparse `--quiet` flag) or `None`; they are modelled by `PyVal`.
* Python `dict`s keyed by strings are modelled as functions
  `String → Option PyVal`; the `|` merge operator is right-biased, like
  Python's.
* A `Path` is modelled by its string content.  The cosmetic normalisation
  performed by the `Path` constructor (collapsing duplicate separators and
  dropping `.` components) is not modelled; no claim depends on it.
* Readable files, the environment, the user database (`pwd`) and the
  taskwarrior store are modelled as explicit inputs.
* Fallible Python code (uncaught exceptions) is modelled with `Except PyErr`.
* The parsed config file is the content of the implicit `[DEFAULT]` section
  produced by `configparser` (keys already lower-cased by `optionxform`,
  values stripped, `%`-interpolation not exercised), as an association list.
  A key present with no value (`allow_no_value`) yields the empty string
  here; both are falsy and are treated identically downstream.
-/

set_option autoImplicit false

namespace Topen

/-- Exceptions that the translated code can raise. -/
inductive PyErr where
  | keyError (k : String)
  | noOptionError (k : String)
  | fileNotFoundError
  | runtimeError
  | typeError
  | doesNotExist
  deriving DecidableEq, Repr

/-- A raw settings value: Python `str`, `bool` or `None`. -/
inductive PyVal where
  | none
  | str (s : String)
  | bool (b : Bool)
  deriving DecidableEq, Repr

instance {α β : Type} [DecidableEq α] [DecidableEq β] :
    DecidableEq (Except α β) := fun x y =>
  match x, y with
  | .ok a, .ok b =>
    if h : a = b then isTrue (by rw [h])
    else isFalse (by intro he; cases he; exact h rfl)
  | .error a, .error b =>
    if h : a = b then isTrue (by rw [h])
    else isFalse (by intro he; cases he; exact h rfl)
  | .ok _, .error _ => isFalse (by intro he; cases he)
  | .error _, .ok _ => isFalse (by intro he; cases he)

/-- Python truthiness for the values that occur in the settings dicts. -/
def pyTruthy : PyVal → Bool
  | .none => false
  | .str s => s != ""
  | .bool b => b

/-- Python `str()` / f-string rendering of a raw settings value. -/
def pyValToStr : PyVal → String
  | .none => "None"
  | .str s => s
  | .bool b => cond b "True" "False"

/-- Lift an optional string (e.g. `os.getenv` result) into a raw value:
`None` stays `None`. -/
def optStr : Option String → PyVal
  | Option.none => .none
  | Option.some s => .str s

/-- Python `a or b` for an optional string `a` (empty strings are falsy). -/
def pyOrStr (a : Option String) (b : String) : String :=
  match a with
  | Option.none => b
  | Option.some s => if s = "" then b else s

/-- A Python string-keyed dict, viewed through lookups. -/
def Dict : Type := String → Option PyVal

/-- Environment snapshot: `os.getenv`. -/
def EnvMap : Type := String → Option String

/-- Parsed content of the config file's implicit default section. -/
def ConfFile : Type := List (String × String)

/-- User database for `~user` expansion (`pwd`): user name to home dir. -/
def UserDb : Type := String → Option String

/-- Readable config files: resolved path to parsed content. -/
def FileSys : Type := String → Option ConfFile

/-- Build a dict from a Python dict literal (keys are distinct). -/
def mkDict (ps : List (String × PyVal)) : Dict :=
  fun k => (ps.lookup k)

/-- Keep a value only if it is truthy (one entry of `_filtered_dict`). -/
def filt (v : PyVal) : Option PyVal :=
  if pyTruthy v then some v else none

/-- `_filtered_dict`: the None/falsy-filtered dict which only contains
keys which have a (truthy) value. -/
def _filtered_dict (d : Dict) : Dict :=
  fun k => (d k).bind filt

/-- Right-biased option choice (`a` wins when present). -/
def oE (a b : Option PyVal) : Option PyVal :=
  match a with
  | some v => some v
  | Option.none => b

/-- Python dict merge `d1 | d2` (`d2` has priority), viewed through lookups. -/
def mergeD (d1 d2 : Dict) : Dict :=
  fun k => oE (d2 k) (d1 k)

/-- Default editor: `os.getenv("EDITOR") or os.getenv("VISUAL") or "nano"`. -/
def notesEditorDefault (env : EnvMap) : String :=
  pyOrStr (env "EDITOR") (pyOrStr (env "VISUAL") "nano")

/-- `DEFAULTS_DICT` from the source (evaluated against the ambient
environment, which supplies the default editor). -/
def DEFAULTS_DICT (env : EnvMap) : List (String × String) :=
  [("task.rc", "~/.config/task/taskrc"),
   ("task.data", "~/.task"),
   ("notes.dir", "~/.task/notes"),
   ("notes.ext", "md"),
   ("notes.annot", "Note"),
   ("notes.editor", notesEditorDefault env),
   ("notes.quiet", "False")]

/-! ## Path normalisation (`_real_path`) -/

/-- Word characters of the `re.ASCII` pattern `\w` used by
`os.path.expandvars`. -/
def isVarChar (c : Char) : Bool :=
  c.isAlphanum || c == '_'

/-- Split a `${...}` body: returns the part before the first `}` and the
part after it, or `none` when no closing brace exists. -/
def splitBrace : List Char → Option (List Char × List Char)
  | [] => Option.none
  | c :: rest =>
    if c = '}' then some ([], rest)
    else
      match splitBrace rest with
      | some (n, r) => some (c :: n, r)
      | Option.none => Option.none

/-- `os.path.expandvars`, following CPython's scan with the pattern
`\$(\w+|\{[^}]*\})`: a defined variable's reference is replaced by its value
(which is not rescanned), an undefined reference is left unchanged, and
scanning resumes after the match.  The extra fuel argument makes the
recursion structural; every recursive call is on a strictly shorter list,
so fuel equal to the input length (as supplied by `expandvars`) never runs
out. -/
def expandvarsAux (env : EnvMap) : Nat → List Char → List Char
  | _, [] => []
  | 0, l => l
  | fuel + 1, c :: rest =>
    if c = '$' then
      match rest with
      | '{' :: rest2 =>
        match splitBrace rest2 with
        | some (name, rest3) =>
          (match env (String.mk name) with
           | some v => v.data ++ expandvarsAux env fuel rest3
           | Option.none =>
             '$' :: '{' :: (name ++ '}' :: expandvarsAux env fuel rest3))
        | Option.none => '$' :: '{' :: expandvarsAux env fuel rest2
      | _ =>
        let name := rest.takeWhile isVarChar
        if name.isEmpty then '$' :: expandvarsAux env fuel rest
        else
          (match env (String.mk name) with
           | some v => v.data ++ expandvarsAux env fuel (rest.drop name.length)
           | Option.none =>
             '$' :: (name ++ expandvarsAux env fuel (rest.drop name.length)))
    else c :: expandvarsAux env fuel rest

def expandvars (env : EnvMap) (s : String) : String :=
  String.mk (expandvarsAux env s.data.length s.data)

/-- Remove trailing `/` characters (`str.rstrip('/')`). -/
def rstripSlashL (l : List Char) : List Char :=
  (l.reverse.dropWhile (· == '/')).reverse

/-- `os.path.expanduser`: a leading `~` component is replaced by the home
directory (`~` alone) or by the named user's home directory; an unknown
user leaves the path unchanged. -/
def expanduser_os (home : String) (udb : UserDb) (p : String) : String :=
  match p.data with
  | '~' :: rest =>
    let uname := rest.takeWhile (· != '/')
    let tail := rest.drop uname.length
    let userhome : Option (List Char) :=
      if uname.isEmpty then some home.data
      else
        match udb (String.mk uname) with
        | some h => some h.data
        | Option.none => Option.none
    (match userhome with
     | Option.none => p
     | some uh =>
       let r := rstripSlashL uh ++ tail
       if r.isEmpty then "/" else String.mk r)
  | _ => p

/-- `pathlib.Path.expanduser`: expands a leading `~` component via
`os.path.expanduser` and raises `RuntimeError` when the expansion still
begins with `~` (unresolvable home directory). -/
def path_expanduser (home : String) (udb : UserDb) (p : String) :
    Except PyErr String :=
  match p.data with
  | '~' :: _ =>
    (match (expanduser_os home udb p).data with
     | '~' :: _ => .error .runtimeError
     | _ => .ok (expanduser_os home udb p))
  | _ => .ok p

/-- `_real_path`: `Path(os.path.expandvars(p)).expanduser()`. -/
def _real_path (env : EnvMap) (home : String) (udb : UserDb) (p : String) :
    Except PyErr String :=
  path_expanduser home udb (expandvars env p)

/-! ## Tier readers -/

/-- The argparse result namespace of `parse_cli`: the required positional
`id`, the optional string options, and the `--quiet` store-true flag.
(The source field named after the `--annotation` option is called `annot`
here.) -/
structure CliArgs where
  id : String
  notes_dir : Option String
  quiet : Bool
  extension : Option String
  annot : Option String
  editor : Option String
  task_rc : Option String
  task_data : Option String
  deriving DecidableEq, Repr

/-- `parse_cli`: the command-line tier reader. -/
def parse_cli (p : CliArgs) : Dict :=
  _filtered_dict (mkDict
    [("task.id", .str p.id),
     ("task.rc", optStr p.task_rc),
     ("task.data", optStr p.task_data),
     ("notes.dir", optStr p.notes_dir),
     ("notes.ext", optStr p.extension),
     ("notes.annot", optStr p.annot),
     ("notes.editor", optStr p.editor),
     ("notes.quiet", .bool p.quiet)])

/-- `parse_env`: the environment tier reader. -/
def parse_env (env : EnvMap) : Dict :=
  _filtered_dict (mkDict
    [("task.rc", optStr (env "TASKRC")),
     ("task.data", optStr (env "TASKDATA")),
     ("notes.dir", optStr (env "TOPEN_NOTES_DIR")),
     ("notes.ext", optStr (env "TOPEN_NOTES_EXT")),
     ("notes.annot", optStr (env "TOPEN_NOTES_ANNOT")),
     ("notes.editor", optStr (env "TOPEN_NOTES_EDITOR")),
     ("notes.quiet", optStr (env "TOPEN_NOTES_QUIET"))])

/-- `ConfigParser.get("DEFAULT", key)` with `defaults=DEFAULTS_DICT`: the
file content was read into the same default section, so a key present in
the file wins, otherwise the constructor default applies, otherwise
`NoOptionError` is raised. -/
def c_get (env : EnvMap) (file : ConfFile) (key : String) :
    Except PyErr String :=
  match file.lookup key with
  | some v => .ok v
  | Option.none =>
    match (DEFAULTS_DICT env).lookup key with
    | some v => .ok v
    | Option.none => .error (.noOptionError key)

/-- `parse_conf`: the config-file tier reader (operating on the parsed
file content; note that it never extracts a `task.rc` key, and that the
`task.data` entry is read from the file key `data.location`). -/
def parse_conf (env : EnvMap) (file : ConfFile) : Except PyErr Dict := do
  let td ← c_get env file "data.location"
  let nd ← c_get env file "notes.dir"
  let ne ← c_get env file "notes.ext"
  let na ← c_get env file "notes.annot"
  let ned ← c_get env file "notes.editor"
  let nq ← c_get env file "notes.quiet"
  return _filtered_dict (mkDict
    [("task.data", .str td),
     ("notes.dir", .str nd),
     ("notes.ext", .str ne),
     ("notes.annot", .str na),
     ("notes.editor", .str ned),
     ("notes.quiet", .str nq)])

/-! ## Typed configuration -/

/-- The `TConf` dataclass.  The dataclass performs no validation or
coercion, so the non-path fields keep the raw merged values (in
particular `notes_quiet` holds whatever raw value was merged, not a
coerced boolean). -/
structure TConf where
  task_rc : String
  task_data : String
  task_id : PyVal
  notes_dir : String
  notes_ext : PyVal
  notes_annot : PyVal
  notes_editor : PyVal
  notes_quiet : PyVal
  deriving DecidableEq, Repr

/-- Python `d[k]`: raises `KeyError` when the key is absent. -/
def getKey (d : Dict) (k : String) : Except PyErr PyVal :=
  match d k with
  | some v => .ok v
  | Option.none => .error (.keyError k)

/-- `os.path.expandvars` raises `TypeError` on a non-string argument. -/
def asStr (v : PyVal) : Except PyErr String :=
  match v with
  | .str s => .ok s
  | _ => .error .typeError

/-- `conf_from_dict`: build a `TConf` from the merged dict.  Field values
are computed in the order of the `TConf(...)` call, so the first missing
key determines the raised `KeyError`. -/
def conf_from_dict (env : EnvMap) (home : String) (udb : UserDb)
    (d : Dict) : Except PyErr TConf := do
  let task_rc ← _real_path env home udb (← asStr (← getKey d "task.rc"))
  let task_data ← _real_path env home udb (← asStr (← getKey d "task.data"))
  let task_id ← getKey d "task.id"
  let notes_dir ← _real_path env home udb (← asStr (← getKey d "notes.dir"))
  let notes_ext ← getKey d "notes.ext"
  let notes_annot ← getKey d "notes.annot"
  let notes_editor ← getKey d "notes.editor"
  let notes_quiet ← getKey d "notes.quiet"
  return { task_rc, task_data, task_id, notes_dir,
           notes_ext, notes_annot, notes_editor, notes_quiet }

/-! ## Collaborators -/

/-- A taskwarrior task: its uuid and the descriptions of its annotations.
(`tasklib` may report the annotation list as `None`; that case behaves
like the empty list in the loop below and is modelled as `[]`.) -/
structure Task where
  uuid : String
  annotations : List String
  deriving DecidableEq, Repr

/-- The taskwarrior store: `tasks.get(id=...)` and `tasks.get(uuid=...)`,
each returning a match or raising `Task.DoesNotExist`. -/
structure TaskDb where
  byId : PyVal → Option Task
  byUuid : PyVal → Option Task

/-- `get_task`: numeric-id lookup with a uuid-lookup fallback; when the
fallback also misses, `Task.DoesNotExist` propagates to the caller. -/
def get_task (tw : TaskDb) (id : PyVal) : Except PyErr Task :=
  match tw.byId id with
  | some t => .ok t
  | Option.none =>
    match tw.byUuid id with
    | some t => .ok t
    | Option.none => .error .doesNotExist

/-- `get_notes_file`: `Path(notes_dir).joinpath(f"{uuid}.{notes_ext}")`. -/
def get_notes_file (uuid : String) (notes_dir : String) (notes_ext : PyVal) :
    String :=
  String.mk (rstripSlashL notes_dir.data) ++ "/" ++ uuid ++ "." ++
    pyValToStr notes_ext

/-- `whisper`: emits the text unless quiet mode is on.  The returned list
is the sequence of informational messages actually printed. -/
def whisper (quiet : Bool) (text : String) : List String :=
  if quiet then [] else [text]

/-- `open_editor`: whispers a notice and launches
`subprocess.Popen(f"{editor} {file}", shell=True)`, waiting for it.
Returns the printed messages and the launched shell command. -/
def open_editor (quiet : Bool) (file : String) (editor : PyVal) :
    List String × String :=
  (whisper quiet (s!"Editing note: {file}"), s!"{pyValToStr editor} {file}")

/-- `add_annotation_if_missing`: appends the annotation only when no
existing annotation's description equals the content exactly.  Returns the
updated task and the printed messages. -/
def add_annotation_if_missing (quiet : Bool) (task : Task)
    (annotation_content : String) : Task × List String :=
  if task.annotations.any (fun annot => annot == annotation_content) then
    (task, [])
  else
    ({ task with annotations := task.annotations ++ [annotation_content] },
     whisper quiet (s!"Added annotation: {annotation_content}"))

/-! ## Orchestration (`main`) -/

/-- Observable effects of one run. -/
structure Trace where
  stderr : List String
  info : List String
  lookup : Bool
  editorCmd : Option String
  annotAdded : Option String
  deriving DecidableEq, Repr

def emptyTrace : Trace :=
  { stderr := [], info := [], lookup := false,
    editorCmd := Option.none, annotAdded := Option.none }

/-- How the process ends.  An uncaught exception makes the interpreter
print a traceback to the error stream and exit with status 1. -/
inductive Outcome where
  | finished
  | exited (code : Nat)
  | raised (e : PyErr)
  deriving DecidableEq, Repr

def exitStatusOf : Outcome → Nat
  | .finished => 0
  | .exited c => c
  | .raised _ => 1

/-- Whether an error reached the error stream: either an explicit
`sys.stderr.write` happened, or the interpreter printed a traceback for an
uncaught exception. -/
def reportsError (t : Trace) (o : Outcome) : Bool :=
  (match o with
   | .raised _ => true
   | _ => false) || !t.stderr.isEmpty

/-- Line 53 of `main`:
`{"task.rc": DEFAULTS_DICT["task.rc"]} | parse_env() | parse_cli()`. -/
def opts_override (env : EnvMap) (cli : CliArgs) : Dict :=
  mergeD (mergeD
    (mkDict [("task.rc",
      .str (((DEFAULTS_DICT env).lookup "task.rc").getD ""))])
    (parse_env env))
    (parse_cli cli)

/-- The configuration stage of `main` (lines 53-56): bootstrap the config
file location from override tiers only, read and merge the config file,
then build the typed configuration. -/
def mainConf (env : EnvMap) (home : String) (udb : UserDb) (fs : FileSys)
    (cli : CliArgs) : Except PyErr TConf := do
  let ov := opts_override env cli
  let conf_file ← _real_path env home udb (← asStr (← getKey ov "task.rc"))
  let conf_file2 ← path_expanduser home udb conf_file
  let file ← (match fs conf_file2 with
    | some f => Except.ok f
    | Option.none => Except.error PyErr.fileNotFoundError)
  let confd ← parse_conf env file
  conf_from_dict env home udb (mergeD confd ov)

/-- The rest of `main` (lines 64-73), after the quiet flag is set. -/
def mainRest (tw : TaskDb) (cfg : TConf) (quiet : Bool) : Trace × Outcome :=
  match get_task tw cfg.task_id with
  | .error e =>
    ({ emptyTrace with lookup := true }, .raised e)
  | .ok task =>
    if task.uuid = "" then
      ({ emptyTrace with
          stderr := [s!"Could not find task for ID: {pyValToStr cfg.task_id}."],
          lookup := true }, .exited 1)
    else
      let fname := get_notes_file task.uuid cfg.notes_dir cfg.notes_ext
      let ed := open_editor quiet fname cfg.notes_editor
      let ad := add_annotation_if_missing quiet task (pyValToStr cfg.notes_annot)
      ({ stderr := [], info := ed.1 ++ ad.2, lookup := true,
         editorCmd := some ed.2,
         annotAdded :=
           if ad.1.annotations.length = task.annotations.length then
             Option.none
           else some (pyValToStr cfg.notes_annot) }, .finished)

/-- `main`: a failed configuration stage propagates the exception; an
empty (falsy) task id writes a usage error and continues; the quiet gate
is set from the raw truthiness of `notes_quiet`. -/
def mainRun (env : EnvMap) (home : String) (udb : UserDb) (fs : FileSys)
    (tw : TaskDb) (cli : CliArgs) : Trace × Outcome :=
  match mainConf env home udb fs cli with
  | .error e => (emptyTrace, .raised e)
  | .ok cfg =>
    let pre : List String :=
      if pyTruthy cfg.task_id then []
      else ["Please provide task ID as argument.\n"]
    let quiet := pyTruthy cfg.notes_quiet
    let r := mainRest tw cfg quiet
    ({ r.1 with stderr := pre ++ r.1.stderr }, r.2)

/-! ## Spec-side vocabulary

Definitions below formalise the spec's way of speaking about the merge
(Setting Keys, what a tier "supplies", the precedence formula).  They are
stated from the spec's words, to be compared with the pipeline above. -/

/-- The Setting Keys of the data model (the task identifier is not a
Setting Key). -/
def settingKeys : List String :=
  ["task.rc", "task.data", "notes.dir", "notes.ext",
   "notes.annot", "notes.editor", "notes.quiet"]

/-- The config-file keys the config-file reader recognises. -/
def recognizedConfKeys : List String :=
  ["data.location", "notes.dir", "notes.ext",
   "notes.annot", "notes.editor", "notes.quiet"]

/-- Setting Key to the config-file key it is read from (the config-file
location itself is never read from the config file). -/
def confKeyMap : List (String × String) :=
  [("task.data", "data.location"),
   ("notes.dir", "notes.dir"),
   ("notes.ext", "notes.ext"),
   ("notes.annot", "notes.annot"),
   ("notes.editor", "notes.editor"),
   ("notes.quiet", "notes.quiet")]

/-- The value the config-file tier supplies for a Setting Key: the
recognised entry of the parsed file, empty values counting as "no
opinion". -/
def confSupplied (file : ConfFile) : Dict := fun k =>
  match confKeyMap.lookup k with
  | some fk => (file.lookup fk).bind (fun v => filt (.str v))
  | Option.none => Option.none

/-- The value the built-in defaults supply for a Setting Key. -/
def defaultTier (env : EnvMap) : Dict := fun k =>
  ((DEFAULTS_DICT env).lookup k).map PyVal.str

/-- The spec's precedence formula: command line, else environment, else
config file, else built-in default. -/
def precedenceSpec (env : EnvMap) (cli : CliArgs) (file : ConfFile) :
    Dict := fun k =>
  oE (parse_cli cli k)
    (oE (parse_env env k)
      (oE (confSupplied file k) (defaultTier env k)))

/-- No recognised config-file entry carries an empty value. -/
def noEmptyRecognized (file : ConfFile) : Bool :=
  recognizedConfKeys.all (fun key =>
    match file.lookup key with
    | some v => v != ""
    | Option.none => true)

/-- The string contains no environment-variable reference marker. -/
def noDollar (s : String) : Bool :=
  s.data.all (· != '$')

/-! ## Concrete fixtures -/

/-- An empty environment. -/
def env0 : EnvMap := fun _ => Option.none

def home0 : String := "/home/u"

/-- An empty user database. -/
def udb0 : UserDb := fun _ => Option.none

/-- The expanded default config-file path under `home0`. -/
def rcPath0 : String := "/home/u/.config/task/taskrc"

/-- A minimal parseable config file. -/
def file0 : ConfFile := [("data.location", "/data")]

def fs0 : FileSys := fun p => if p = rcPath0 then some file0 else Option.none

/-- A plain command line: `topen 7`. -/
def cli0 : CliArgs :=
  { id := "7", notes_dir := Option.none, quiet := false,
    extension := Option.none, annot := Option.none, editor := Option.none,
    task_rc := Option.none, task_data := Option.none }

def task0 : Task := { uuid := "u1", annotations := [] }

/-- A store holding exactly the task with id 7. -/
def tw0 : TaskDb :=
  { byId := fun i => if i = PyVal.str "7" then some task0 else Option.none,
    byUuid := fun _ => Option.none }

/-- An empty task store. -/
def twEmpty : TaskDb :=
  { byId := fun _ => Option.none, byUuid := fun _ => Option.none }

/-- A config file whose `notes.ext` entry is present but empty. -/
def file1 : ConfFile := [("data.location", "/data"), ("notes.ext", "")]

/-- A config file whose `notes.dir` entry is present but empty. -/
def file4 : ConfFile := [("data.location", "/data"), ("notes.dir", "")]

def fs4 : FileSys := fun p => if p = rcPath0 then some file4 else Option.none

/-- An environment in which one variable's value references another. -/
def env6 : EnvMap := fun k =>
  if k = "VAR1" then some "$VAR2"
  else if k = "VAR2" then some "/data" else Option.none

/-- A config file carrying a bogus config-file-location entry. -/
def file2 : ConfFile :=
  [("data.location", "/elsewhere"), ("task.rc", "/bogus/taskrc")]

def fs2 : FileSys := fun p => if p = rcPath0 then some file2 else Option.none

/-! ## Basic lemmas about the dict combinators -/

theorem oE_none_left (b : Option PyVal) : oE Option.none b = b := rfl

theorem oE_some (v : PyVal) (b : Option PyVal) : oE (some v) b = some v := rfl

theorem oE_assoc (a b c : Option PyVal) : oE (oE a b) c = oE a (oE b c) := by
  cases a <;> rfl

theorem oE_isSome_right {a : Option PyVal} (b : Option PyVal)
    (h : a.isSome = true) : (oE b a).isSome = true := by
  cases b <;> simp [oE, h]

theorem filt_truthy {v w : PyVal} (h : filt v = some w) : pyTruthy w = true := by
  unfold filt at h
  split at h
  · cases h; assumption
  · cases h

theorem filtered_some {d : Dict} {k : String} {v : PyVal}
    (h : _filtered_dict d k = some v) : pyTruthy v = true := by
  unfold _filtered_dict at h
  cases hd : d k with
  | none => rw [hd] at h; cases h
  | some w => rw [hd] at h; exact filt_truthy h

theorem getKey_of_some {d : Dict} {k : String} {v : PyVal}
    (h : d k = some v) : getKey d k = .ok v := by
  unfold getKey; rw [h]

theorem getKey_isSome {d : Dict} {k : String} (h : (d k).isSome = true) :
    ∃ v, d k = some v ∧ getKey d k = .ok v := by
  cases hd : d k with
  | none => rw [hd] at h; cases h
  | some v => exact ⟨v, rfl, getKey_of_some hd⟩

/-- The seed dict `{"task.rc": DEFAULTS_DICT["task.rc"]}` of line 53. -/
def seedDict (env : EnvMap) : Dict :=
  mkDict [("task.rc", .str (((DEFAULTS_DICT env).lookup "task.rc").getD ""))]

theorem opts_override_eq (env : EnvMap) (cli : CliArgs) :
    opts_override env cli = mergeD (mergeD (seedDict env) (parse_env env))
      (parse_cli cli) := rfl

/-- The merged map of `main`, written as a precedence chain per key. -/
theorem merged_k (env : EnvMap) (cli : CliArgs) (d : Dict) (k : String) :
    mergeD d (opts_override env cli) k =
      oE (parse_cli cli k) (oE (parse_env env k)
        (oE (seedDict env k) (d k))) := by
  show oE (oE (parse_cli cli k) (oE (parse_env env k) (seedDict env k)))
      (d k) = _
  rw [oE_assoc, oE_assoc]

/-! ## Characterisation of `parse_conf` -/

/-- The dict `parse_conf` returns on success (with `td` the value of the
mandatory `data.location` entry). -/
def pcDict (env : EnvMap) (file : ConfFile) (td : String) : Dict :=
  _filtered_dict (mkDict
    [("task.data", .str td),
     ("notes.dir", .str ((file.lookup "notes.dir").getD "~/.task/notes")),
     ("notes.ext", .str ((file.lookup "notes.ext").getD "md")),
     ("notes.annot", .str ((file.lookup "notes.annot").getD "Note")),
     ("notes.editor",
       .str ((file.lookup "notes.editor").getD (notesEditorDefault env))),
     ("notes.quiet", .str ((file.lookup "notes.quiet").getD "False"))])

theorem parse_conf_eq (env : EnvMap) (file : ConfFile) :
    parse_conf env file =
      match file.lookup "data.location" with
      | some td => .ok (pcDict env file td)
      | Option.none => .error (.noOptionError "data.location") := by
  cases h1 : file.lookup "data.location" <;>
  cases h2 : file.lookup "notes.dir" <;>
  cases h3 : file.lookup "notes.ext" <;>
  cases h4 : file.lookup "notes.annot" <;>
  cases h5 : file.lookup "notes.editor" <;>
  cases h6 : file.lookup "notes.quiet" <;>
    simp [parse_conf, c_get, pcDict, h1, h2, h3, h4, h5, h6,
      DEFAULTS_DICT, List.lookup, Bind.bind, Except.bind,
      Pure.pure, Except.pure]

theorem parse_conf_ok_inv {env : EnvMap} {file : ConfFile} {d : Dict}
    (h : parse_conf env file = .ok d) :
    ∃ td, file.lookup "data.location" = some td ∧ d = pcDict env file td := by
  rw [parse_conf_eq] at h
  cases hl : file.lookup "data.location" with
  | none => rw [hl] at h; cases h
  | some td => rw [hl] at h; cases h; exact ⟨td, rfl, rfl⟩

theorem pcDict_taskid (env : EnvMap) (file : ConfFile) (td : String) :
    pcDict env file td "task.id" = Option.none := by
  simp [pcDict, _filtered_dict, mkDict, List.lookup]

theorem pcDict_taskrc (env : EnvMap) (file : ConfFile) (td : String) :
    pcDict env file td "task.rc" = Option.none := by
  simp [pcDict, _filtered_dict, mkDict, List.lookup]

theorem noEmpty_lookup {file : ConfFile} (h : noEmptyRecognized file = true)
    {key : String} (hk : key ∈ recognizedConfKeys) {v : String}
    (hv : file.lookup key = some v) : v ≠ "" := by
  unfold noEmptyRecognized at h
  rw [List.all_eq_true] at h
  have := h key hk
  rw [hv] at this
  simpa using this

theorem notesEditorDefault_ne (env : EnvMap) : notesEditorDefault env ≠ "" := by
  unfold notesEditorDefault pyOrStr
  cases hE : env "EDITOR" with
  | none =>
    cases hV : env "VISUAL" with
    | none => simp
    | some s => simp only []; split <;> simp_all
  | some s =>
    simp only []
    split
    · cases hV : env "VISUAL" with
      | none => simp
      | some s2 => simp only []; split <;> simp_all
    · assumption

theorem filt_str_ne {v : String} (h : v ≠ "") :
    filt (.str v) = some (.str v) := by
  simp [filt, pyTruthy, h]

/-- On every Setting Key other than the config-file location, the dict
returned by `parse_conf` is exactly "config-file-supplied value, else
built-in default" — provided no recognised entry is empty. -/
theorem pcDict_key (env : EnvMap) (file : ConfFile) (td : String)
    (hne : noEmptyRecognized file = true)
    (htd : file.lookup "data.location" = some td) :
    ∀ k ∈ ["task.data", "notes.dir", "notes.ext",
           "notes.annot", "notes.editor", "notes.quiet"],
      pcDict env file td k = oE (confSupplied file k) (defaultTier env k) := by
  intro k hk
  have htdne : td ≠ "" := noEmpty_lookup hne (by decide) htd
  fin_cases hk
  · simp [pcDict, confSupplied, defaultTier, _filtered_dict, mkDict,
      List.lookup, confKeyMap, DEFAULTS_DICT, htd, filt_str_ne htdne, oE]
  · cases hv : file.lookup "notes.dir" with
    | none =>
      simp [pcDict, confSupplied, defaultTier, _filtered_dict, mkDict,
        List.lookup, confKeyMap, DEFAULTS_DICT, hv, oE, filt, pyTruthy]
    | some v =>
      have hvne : v ≠ "" := noEmpty_lookup hne (by decide) hv
      simp [pcDict, confSupplied, defaultTier, _filtered_dict, mkDict,
        List.lookup, confKeyMap, DEFAULTS_DICT, hv, filt_str_ne hvne, oE]
  · cases hv : file.lookup "notes.ext" with
    | none =>
      simp [pcDict, confSupplied, defaultTier, _filtered_dict, mkDict,
        List.lookup, confKeyMap, DEFAULTS_DICT, hv, oE, filt, pyTruthy]
    | some v =>
      have hvne : v ≠ "" := noEmpty_lookup hne (by decide) hv
      simp [pcDict, confSupplied, defaultTier, _filtered_dict, mkDict,
        List.lookup, confKeyMap, DEFAULTS_DICT, hv, filt_str_ne hvne, oE]
  · cases hv : file.lookup "notes.annot" with
    | none =>
      simp [pcDict, confSupplied, defaultTier, _filtered_dict, mkDict,
        List.lookup, confKeyMap, DEFAULTS_DICT, hv, oE, filt, pyTruthy]
    | some v =>
      have hvne : v ≠ "" := noEmpty_lookup hne (by decide) hv
      simp [pcDict, confSupplied, defaultTier, _filtered_dict, mkDict,
        List.lookup, confKeyMap, DEFAULTS_DICT, hv, filt_str_ne hvne, oE]
  · cases hv : file.lookup "notes.editor" with
    | none =>
      simp [pcDict, confSupplied, defaultTier, _filtered_dict, mkDict,
        List.lookup, confKeyMap, DEFAULTS_DICT, hv, oE,
        filt_str_ne (notesEditorDefault_ne env)]
    | some v =>
      have hvne : v ≠ "" := noEmpty_lookup hne (by decide) hv
      simp [pcDict, confSupplied, defaultTier, _filtered_dict, mkDict,
        List.lookup, confKeyMap, DEFAULTS_DICT, hv, filt_str_ne hvne, oE]
  · cases hv : file.lookup "notes.quiet" with
    | none =>
      simp [pcDict, confSupplied, defaultTier, _filtered_dict, mkDict,
        List.lookup, confKeyMap, DEFAULTS_DICT, hv, oE, filt, pyTruthy]
    | some v =>
      have hvne : v ≠ "" := noEmpty_lookup hne (by decide) hv
      simp [pcDict, confSupplied, defaultTier, _filtered_dict, mkDict,
        List.lookup, confKeyMap, DEFAULTS_DICT, hv, filt_str_ne hvne, oE]

theorem seedDict_notRc (env : EnvMap) (k : String) (h : k ≠ "task.rc") :
    seedDict env k = Option.none := by
  have hb : (k == "task.rc") = false := beq_eq_false_iff_ne.mpr h
  simp [seedDict, mkDict, List.lookup, hb]

/-! ## C1 -/

/-- C1 (amended): for every Setting Key, the merged settings map equals
the spec's precedence formula — command-line value, else environment,
else config-file, else built-in default — provided the config file does
not assign an empty value to a recognised key.  (Without that proviso the
claim fails, see the counterexample: an empty config-file entry erases
the key instead of falling back to the default.) -/
theorem c1_merge_precedence (env : EnvMap) (cli : CliArgs)
    (file : ConfFile) (d : Dict)
    (hok : parse_conf env file = .ok d)
    (hne : noEmptyRecognized file = true) :
    ∀ k ∈ settingKeys,
      mergeD d (opts_override env cli) k = precedenceSpec env cli file k := by
  obtain ⟨td, htd, rfl⟩ := parse_conf_ok_inv hok
  have hkey := pcDict_key env file td hne htd
  intro k hk
  rw [merged_k]
  unfold precedenceSpec
  simp only [settingKeys] at hk
  fin_cases hk
  · rw [pcDict_taskrc]
    simp [seedDict, mkDict, List.lookup, confSupplied, confKeyMap,
      defaultTier, DEFAULTS_DICT, oE]
  · rw [seedDict_notRc env "task.data" (by decide), oE_none_left,
      hkey "task.data" (by decide)]
  · rw [seedDict_notRc env "notes.dir" (by decide), oE_none_left,
      hkey "notes.dir" (by decide)]
  · rw [seedDict_notRc env "notes.ext" (by decide), oE_none_left,
      hkey "notes.ext" (by decide)]
  · rw [seedDict_notRc env "notes.annot" (by decide), oE_none_left,
      hkey "notes.annot" (by decide)]
  · rw [seedDict_notRc env "notes.editor" (by decide), oE_none_left,
      hkey "notes.editor" (by decide)]
  · rw [seedDict_notRc env "notes.quiet" (by decide), oE_none_left,
      hkey "notes.quiet" (by decide)]

/-- C1 counterexample: with the config file `file1` declaring
`notes.ext =` (an empty value) and no other tier supplying the key, the
claim's formula yields the built-in default `md`, but the merged map
produced by the code has no `notes.ext` entry at all. -/
theorem c1_counterexample :
    (parse_conf env0 file1).toOption.map
        (fun d => mergeD d (opts_override env0 cli0) "notes.ext")
      = some Option.none ∧
    precedenceSpec env0 cli0 file1 "notes.ext" = some (.str "md") := by
  constructor <;> decide

/-- The dict `parse_conf` returns on the fixture `file0`. -/
def dFix : Dict := pcDict env0 file0 "/data"

theorem c1_witness :
    parse_conf env0 file0 = .ok dFix ∧
    noEmptyRecognized file0 = true ∧
    mergeD dFix (opts_override env0 cli0) "notes.dir"
      = precedenceSpec env0 cli0 file0 "notes.dir" :=
  ⟨by rw [parse_conf_eq]; rfl, by decide,
   c1_merge_precedence env0 cli0 file0 dFix (by rw [parse_conf_eq]; rfl)
     (by decide) "notes.dir" (by decide)⟩

/-! ## Inversion lemmas for the typed-configuration chain -/

theorem getKey_ok_inv {d : Dict} {k : String} {v : PyVal}
    (h : getKey d k = .ok v) : d k = some v := by
  unfold getKey at h
  cases hd : d k with
  | none => rw [hd] at h; cases h
  | some w => rw [hd] at h; cases h; rfl

theorem getKey_error {d : Dict} {k : String} {e : PyErr}
    (h : getKey d k = .error e) : e = .keyError k := by
  unfold getKey at h
  cases hd : d k with
  | none => rw [hd] at h; cases h; rfl
  | some w => rw [hd] at h; cases h

theorem asStr_error {v : PyVal} {e : PyErr} (h : asStr v = .error e) :
    e = .typeError := by
  cases v with
  | str s => simp [asStr] at h
  | none => simp [asStr] at h; exact h.symm
  | bool b => simp [asStr] at h; exact h.symm

theorem real_path_error {env : EnvMap} {home : String} {udb : UserDb}
    {s : String} {e : PyErr}
    (h : _real_path env home udb s = .error e) : e = .runtimeError := by
  unfold _real_path path_expanduser at h
  split at h
  · split at h
    · cases h; rfl
    · cases h
  · cases h

/-- What a successful `conf_from_dict` says about the input dict and the
resulting record. -/
theorem conf_from_dict_ok_inv {env : EnvMap} {home : String} {udb : UserDb}
    {d : Dict} {cfg : TConf}
    (h : conf_from_dict env home udb d = .ok cfg) :
    (∃ v s, d "task.rc" = some v ∧ asStr v = .ok s ∧
      _real_path env home udb s = .ok cfg.task_rc) ∧
    (∃ v, d "task.id" = some v ∧ cfg.task_id = v) := by
  simp only [conf_from_dict, Bind.bind, Except.bind] at h
  cases hg1 : getKey d "task.rc" with
  | error e => simp only [hg1] at h; exact Except.noConfusion h
  | ok v1 =>
  simp only [hg1] at h
  cases ha1 : asStr v1 with
  | error e => simp only [ha1] at h; exact Except.noConfusion h
  | ok s1 =>
  simp only [ha1] at h
  cases hr1 : _real_path env home udb s1 with
  | error e => simp only [hr1] at h; exact Except.noConfusion h
  | ok r1 =>
  simp only [hr1] at h
  cases hg2 : getKey d "task.data" with
  | error e => simp only [hg2] at h; exact Except.noConfusion h
  | ok v2 =>
  simp only [hg2] at h
  cases ha2 : asStr v2 with
  | error e => simp only [ha2] at h; exact Except.noConfusion h
  | ok s2 =>
  simp only [ha2] at h
  cases hr2 : _real_path env home udb s2 with
  | error e => simp only [hr2] at h; exact Except.noConfusion h
  | ok r2 =>
  simp only [hr2] at h
  cases hg3 : getKey d "task.id" with
  | error e => simp only [hg3] at h; exact Except.noConfusion h
  | ok v3 =>
  simp only [hg3] at h
  cases hg4 : getKey d "notes.dir" with
  | error e => simp only [hg4] at h; exact Except.noConfusion h
  | ok v4 =>
  simp only [hg4] at h
  cases ha4 : asStr v4 with
  | error e => simp only [ha4] at h; exact Except.noConfusion h
  | ok s4 =>
  simp only [ha4] at h
  cases hr4 : _real_path env home udb s4 with
  | error e => simp only [hr4] at h; exact Except.noConfusion h
  | ok r4 =>
  simp only [hr4] at h
  cases hg5 : getKey d "notes.ext" with
  | error e => simp only [hg5] at h; exact Except.noConfusion h
  | ok v5 =>
  simp only [hg5] at h
  cases hg6 : getKey d "notes.annot" with
  | error e => simp only [hg6] at h; exact Except.noConfusion h
  | ok v6 =>
  simp only [hg6] at h
  cases hg7 : getKey d "notes.editor" with
  | error e => simp only [hg7] at h; exact Except.noConfusion h
  | ok v7 =>
  simp only [hg7] at h
  cases hg8 : getKey d "notes.quiet" with
  | error e => simp only [hg8] at h; exact Except.noConfusion h
  | ok v8 =>
  simp only [hg8, Pure.pure, Except.pure] at h
  cases h
  exact ⟨⟨v1, s1, getKey_ok_inv hg1, ha1, by rw [hr1]⟩,
         ⟨v3, getKey_ok_inv hg3, rfl⟩⟩

/-- Under a dict defined on all Setting Keys, the only `KeyError` that
`conf_from_dict` can raise concerns the task identifier. -/
theorem conf_from_dict_keyError {env : EnvMap} {home : String}
    {udb : UserDb} {d : Dict} {k : String}
    (h7 : ∀ k' ∈ settingKeys, (d k').isSome = true)
    (herr : conf_from_dict env home udb d = .error (.keyError k)) :
    k = "task.id" := by
  obtain ⟨v1, hd1, hg1⟩ := getKey_isSome (h7 "task.rc" (by decide))
  obtain ⟨v2, hd2, hg2⟩ := getKey_isSome (h7 "task.data" (by decide))
  obtain ⟨v4, hd4, hg4⟩ := getKey_isSome (h7 "notes.dir" (by decide))
  obtain ⟨v5, hd5, hg5⟩ := getKey_isSome (h7 "notes.ext" (by decide))
  obtain ⟨v6, hd6, hg6⟩ := getKey_isSome (h7 "notes.annot" (by decide))
  obtain ⟨v7, hd7, hg7⟩ := getKey_isSome (h7 "notes.editor" (by decide))
  obtain ⟨v8, hd8, hg8⟩ := getKey_isSome (h7 "notes.quiet" (by decide))
  simp only [conf_from_dict, Bind.bind, Except.bind,
    hg1, hg2, hg4, hg5, hg6, hg7, hg8] at herr
  cases ha1 : asStr v1 with
  | error e =>
    simp only [ha1] at herr
    injection herr with h2
    exact absurd (h2 ▸ asStr_error ha1) (by simp)
  | ok s1 =>
  simp only [ha1] at herr
  cases hr1 : _real_path env home udb s1 with
  | error e =>
    simp only [hr1] at herr
    injection herr with h2
    exact absurd (h2 ▸ real_path_error hr1) (by simp)
  | ok r1 =>
  simp only [hr1] at herr
  cases ha2 : asStr v2 with
  | error e =>
    simp only [ha2] at herr
    injection herr with h2
    exact absurd (h2 ▸ asStr_error ha2) (by simp)
  | ok s2 =>
  simp only [ha2] at herr
  cases hr2 : _real_path env home udb s2 with
  | error e =>
    simp only [hr2] at herr
    injection herr with h2
    exact absurd (h2 ▸ real_path_error hr2) (by simp)
  | ok r2 =>
  simp only [hr2] at herr
  cases hg3 : getKey d "task.id" with
  | error e =>
    simp only [hg3] at herr
    injection herr with h2
    have h3 := h2 ▸ getKey_error hg3
    injection h3 with h4
  | ok v3 =>
  simp only [hg3] at herr
  cases ha4 : asStr v4 with
  | error e =>
    simp only [ha4] at herr
    injection herr with h2
    exact absurd (h2 ▸ asStr_error ha4) (by simp)
  | ok s4 =>
  simp only [ha4] at herr
  cases hr4 : _real_path env home udb s4 with
  | error e =>
    simp only [hr4] at herr
    injection herr with h2
    exact absurd (h2 ▸ real_path_error hr4) (by simp)
  | ok r4 =>
  simp only [hr4, Pure.pure, Except.pure] at herr
  exact Except.noConfusion herr

/-- What a successful configuration stage says: some file was read and the
typed configuration was built from the merged dict. -/
theorem mainConf_ok_inv {env : EnvMap} {home : String} {udb : UserDb}
    {fs : FileSys} {cli : CliArgs} {cfg : TConf}
    (h : mainConf env home udb fs cli = .ok cfg) :
    ∃ file d, parse_conf env file = .ok d ∧
      conf_from_dict env home udb
        (mergeD d (opts_override env cli)) = .ok cfg := by
  simp only [mainConf, Bind.bind, Except.bind] at h
  cases hg : getKey (opts_override env cli) "task.rc" with
  | error e => simp only [hg] at h; exact Except.noConfusion h
  | ok v =>
  simp only [hg] at h
  cases ha : asStr v with
  | error e => simp only [ha] at h; exact Except.noConfusion h
  | ok s =>
  simp only [ha] at h
  cases hr : _real_path env home udb s with
  | error e => simp only [hr] at h; exact Except.noConfusion h
  | ok p1 =>
  simp only [hr] at h
  cases he : path_expanduser home udb p1 with
  | error e => simp only [he] at h; exact Except.noConfusion h
  | ok p2 =>
  simp only [he] at h
  cases hf : fs p2 with
  | none => simp only [hf] at h; exact Except.noConfusion h
  | some file =>
  simp only [hf] at h
  cases hp : parse_conf env file with
  | error e => simp only [hp] at h; exact Except.noConfusion h
  | ok d =>
  simp only [hp] at h
  exact ⟨file, d, hp, h⟩

/-! ## C2 -/

theorem seedDict_taskrc (env : EnvMap) :
    seedDict env "task.rc" = some (.str "~/.config/task/taskrc") := by
  simp [seedDict, mkDict, List.lookup, DEFAULTS_DICT]

/-- Whatever the config file contributed, the merged `task.rc` entry is
the override tiers' one (the seed makes it always present there). -/
theorem merged_taskrc (env : EnvMap) (cli : CliArgs) (d : Dict) :
    mergeD d (opts_override env cli) "task.rc"
      = opts_override env cli "task.rc" := by
  have h : (opts_override env cli "task.rc").isSome = true := by
    rw [opts_override_eq]
    show ((mergeD (mergeD (seedDict env) (parse_env env)) (parse_cli cli))
      "task.rc").isSome = true
    unfold mergeD
    apply oE_isSome_right
    apply oE_isSome_right
    rw [seedDict_taskrc]
    rfl
  obtain ⟨v, hv⟩ := Option.isSome_iff_exists.mp h
  show oE (opts_override env cli "task.rc") (d "task.rc") = _
  rw [hv, oE_some]

/-- C2: the resolved config-file location in the final configuration never
depends on the config file's own contents: two runs differing only in the
readable files (hence in the config file contents, bogus `task.rc` entries
included) resolve the same `task_rc`. -/
theorem c2_taskrc_independent (env : EnvMap) (home : String) (udb : UserDb)
    (cli : CliArgs) (fs fs' : FileSys) (cfg cfg' : TConf)
    (h : mainConf env home udb fs cli = .ok cfg)
    (h' : mainConf env home udb fs' cli = .ok cfg') :
    cfg.task_rc = cfg'.task_rc := by
  obtain ⟨f1, d1, hp1, hc1⟩ := mainConf_ok_inv h
  obtain ⟨f2, d2, hp2, hc2⟩ := mainConf_ok_inv h'
  obtain ⟨⟨v1, s1, hv1, hs1, hr1⟩, -⟩ := conf_from_dict_ok_inv hc1
  obtain ⟨⟨v2, s2, hv2, hs2, hr2⟩, -⟩ := conf_from_dict_ok_inv hc2
  rw [merged_taskrc] at hv1 hv2
  rw [hv1] at hv2
  cases hv2
  rw [hs1] at hs2
  cases hs2
  rw [hr1] at hr2
  injection hr2

/-- The configuration `mainConf` produces from the fixture world `fs0`. -/
def cfgA : TConf :=
  { task_rc := rcPath0, task_data := "/data", task_id := .str "7",
    notes_dir := "/home/u/.task/notes", notes_ext := .str "md",
    notes_annot := .str "Note", notes_editor := .str "nano",
    notes_quiet := .str "False" }

/-- The configuration produced from `fs2` (bogus `task.rc` entry in the
config file, different `data.location`). -/
def cfgB : TConf := { cfgA with task_data := "/elsewhere" }

theorem c2_witness :
    mainConf env0 home0 udb0 fs0 cli0 = .ok cfgA ∧
    mainConf env0 home0 udb0 fs2 cli0 = .ok cfgB ∧
    cfgA.task_rc = cfgB.task_rc :=
  ⟨by decide, by decide,
   c2_taskrc_independent env0 home0 udb0 cli0 fs0 fs2 cfgA cfgB
     (by decide) (by decide)⟩

/-! ## C4 -/

theorem defaultTier_isSome (env : EnvMap) :
    ∀ k ∈ settingKeys, (defaultTier env k).isSome = true := by
  intro k hk
  simp only [settingKeys] at hk
  fin_cases hk <;> simp [defaultTier, DEFAULTS_DICT, List.lookup]

/-- C4 (amended): provided the config file assigns no empty value to a
recognised key, the merged map contains a value for every Setting Key, so
the only missing-key failure the typed builder can raise concerns the
task identifier.  (Without the proviso the claim fails: see the
counterexample, where an empty `notes.dir` entry makes construction fail
with a `KeyError` for `notes.dir`.) -/
theorem c4_defaults_cover (env : EnvMap) (cli : CliArgs) (file : ConfFile)
    (d : Dict) (hok : parse_conf env file = .ok d)
    (hne : noEmptyRecognized file = true) :
    (∀ k ∈ settingKeys,
      (mergeD d (opts_override env cli) k).isSome = true) ∧
    (∀ (home : String) (udb : UserDb) (k : String),
      conf_from_dict env home udb (mergeD d (opts_override env cli))
        = .error (.keyError k) → k = "task.id") := by
  obtain ⟨td, htd, rfl⟩ := parse_conf_ok_inv hok
  have hkey := pcDict_key env file td hne htd
  have hcover : ∀ k ∈ settingKeys,
      (mergeD (pcDict env file td) (opts_override env cli) k).isSome
        = true := by
    intro k hk
    rw [merged_k]
    apply oE_isSome_right
    apply oE_isSome_right
    by_cases hrc : k = "task.rc"
    · subst hrc
      rw [seedDict_taskrc]
      rfl
    · rw [seedDict_notRc env k hrc, oE_none_left]
      have hk6 : k ∈ ["task.data", "notes.dir", "notes.ext",
          "notes.annot", "notes.editor", "notes.quiet"] := by
        simp only [settingKeys] at hk
        fin_cases hk <;> first | (exact absurd rfl hrc) | decide
      rw [hkey k hk6]
      exact oE_isSome_right _ (defaultTier_isSome env k hk)
  exact ⟨hcover, fun home udb k herr =>
    conf_from_dict_keyError hcover herr⟩

/-- C4 counterexample: `file4` is readable and parseable but carries an
empty `notes.dir` entry; the merged map then lacks `notes.dir` entirely
and construction fails with a `KeyError` for `notes.dir`, not for the
task identifier. -/
theorem c4_counterexample :
    (parse_conf env0 file4).toOption.map
        (fun d => mergeD d (opts_override env0 cli0) "notes.dir")
      = some Option.none ∧
    mainConf env0 home0 udb0 fs4 cli0 = .error (.keyError "notes.dir") ∧
    "notes.dir" ≠ "task.id" := by
  refine ⟨by decide, by decide, by decide⟩

theorem c4_witness :
    parse_conf env0 file0 = .ok dFix ∧
    noEmptyRecognized file0 = true ∧
    (mergeD dFix (opts_override env0 cli0) "notes.ext").isSome = true :=
  ⟨by rw [parse_conf_eq]; rfl, by decide,
   (c4_defaults_cover env0 cli0 file0 dFix (by rw [parse_conf_eq]; rfl)
     (by decide)).1 "notes.ext" (by decide)⟩

/-! ## C5 -/

theorem parse_cli_taskid_empty (cli : CliArgs) (h : cli.id = "") :
    parse_cli cli "task.id" = Option.none := by
  simp [parse_cli, _filtered_dict, mkDict, List.lookup, h, filt, pyTruthy]

theorem parse_env_taskid (env : EnvMap) :
    parse_env env "task.id" = Option.none := by
  simp [parse_env, _filtered_dict, mkDict, List.lookup]

/-- C5 (amended): with an empty command-line task identifier the falsy
filter drops the `task.id` entry, so the typed builder raises before the
usage-message check: the run aborts with an uncaught exception, writes no
usage error, and never attempts the task lookup.  (The claimed
write-usage-error-and-continue behaviour is unreachable: construction
only succeeds with a truthy identifier.) -/
theorem c5_empty_id_aborts (env : EnvMap) (home : String) (udb : UserDb)
    (fs : FileSys) (tw : TaskDb) (cli : CliArgs) (h : cli.id = "") :
    (mainRun env home udb fs tw cli).1 = emptyTrace ∧
    ∃ e, (mainRun env home udb fs tw cli).2 = .raised e := by
  cases hc : mainConf env home udb fs cli with
  | error e =>
    constructor
    · simp [mainRun, hc]
    · exact ⟨e, by simp [mainRun, hc]⟩
  | ok cfg =>
    exfalso
    obtain ⟨file, d, hp, hcd⟩ := mainConf_ok_inv hc
    obtain ⟨-, v, hv, -⟩ := conf_from_dict_ok_inv hcd
    obtain ⟨td, htd, rfl⟩ := parse_conf_ok_inv hp
    rw [merged_k, parse_cli_taskid_empty cli h, parse_env_taskid,
      seedDict_notRc env _ (by decide), pcDict_taskid] at hv
    cases hv

/-- A command line with an empty positional identifier: `topen ""`. -/
def cli5 : CliArgs := { cli0 with id := "" }

/-- C5 counterexample: with the empty identifier the run raises
`KeyError('task.id')` inside the typed builder — the usage error is never
written to the error stream and no lookup is attempted, refuting the
claimed write-then-continue behaviour. -/
theorem c5_counterexample :
    mainRun env0 home0 udb0 fs0 tw0 cli5
      = (emptyTrace, .raised (.keyError "task.id")) ∧
    emptyTrace.stderr = [] ∧ emptyTrace.lookup = false := by
  refine ⟨by decide, rfl, rfl⟩

theorem c5_witness :
    cli5.id = "" ∧ (mainRun env0 home0 udb0 fs0 tw0 cli5).1 = emptyTrace :=
  ⟨rfl, (c5_empty_id_aborts env0 home0 udb0 fs0 tw0 cli5 rfl).1⟩

/-! ## C3 -/

/-- C3 (code bug): the typed builder performs no boolean coercion at all —
`notes_quiet` keeps the raw merged value.  With no quiet setting supplied
anywhere, the merged value is the default string `"False"`, which is
truthy in Python, so `main` enables quiet mode: on the fixture run the
informational messages are suppressed (`info = []`) even though the user
never requested quiet, contradicting both the claimed coercion and the
`notes_quiet: bool` field annotation of the dataclass. -/
theorem c3_quiet_default_bug :
    mainConf env0 home0 udb0 fs0 cli0 = .ok cfgA ∧
    cfgA.notes_quiet = .str "False" ∧
    pyTruthy cfgA.notes_quiet = true ∧
    mainRun env0 home0 udb0 fs0 tw0 cli0
      = ({ stderr := [], info := [], lookup := true,
           editorCmd := some "nano /home/u/.task/notes/u1.md",
           annotAdded := some "Note" }, .finished) := by
  refine ⟨by decide, by decide, by decide, by decide⟩

/-! ## C6 -/

/-- C6 counterexample: with `VAR1=$VAR2` and `VAR2=/data` in the
environment, normalising `$VAR1` gives `$VAR2`, but normalising the
result again gives `/data` — the substituted value is picked up by the
second pass, so the normaliser is not idempotent. -/
theorem c6_counterexample :
    _real_path env6 home0 udb0 "$VAR1" = .ok "$VAR2" ∧
    _real_path env6 home0 udb0 "$VAR2" = .ok "/data" ∧
    (Except.ok "$VAR2" : Except PyErr String) ≠ .ok "/data" := by
  refine ⟨by decide, by decide, by decide⟩

theorem expandvarsAux_no_dollar (env : EnvMap) :
    ∀ (fuel : Nat) (l : List Char), l.all (· != '$') = true →
      expandvarsAux env fuel l = l := by
  intro fuel
  induction fuel with
  | zero => intro l h; cases l <;> rfl
  | succ n ih =>
    intro l h
    cases l with
    | nil => rfl
    | cons c rest =>
      rw [List.all_cons, Bool.and_eq_true] at h
      have hc : ¬ c = '$' := by simpa using h.1
      simp only [expandvarsAux]
      rw [if_neg hc, ih rest h.2]

theorem expandvars_no_dollar (env : EnvMap) (s : String)
    (h : noDollar s = true) : expandvars env s = s := by
  obtain ⟨l⟩ := s
  unfold expandvars
  rw [expandvarsAux_no_dollar env _ l h]

theorem all_ne_rstrip {l : List Char} (h : l.all (· != '$') = true) :
    (rstripSlashL l).all (· != '$') = true := by
  rw [List.all_eq_true] at h ⊢
  intro x hx
  apply h
  unfold rstripSlashL at hx
  have h1 : x ∈ l.reverse.dropWhile (· == '/') := List.mem_reverse.mp hx
  have h2 : x ∈ l.reverse := (List.dropWhile_sublist _).subset h1
  exact List.mem_reverse.mp h2

theorem all_ne_drop {l : List Char} (n : Nat)
    (h : l.all (· != '$') = true) : (l.drop n).all (· != '$') = true := by
  rw [List.all_eq_true] at h ⊢
  intro x hx
  exact h x (List.drop_subset n l hx)

theorem expanduser_os_noDollar (home : String) (udb : UserDb) (p : String)
    (hp : noDollar p = true) (hh : noDollar home = true)
    (hu : ∀ u h, udb u = some h → noDollar h = true) :
    noDollar (expanduser_os home udb p) = true := by
  unfold expanduser_os
  split
  · rename_i rest heq
    have hrest : rest.all (· != '$') = true := by
      have h1 := hp
      unfold noDollar at h1
      rw [heq, List.all_cons, Bool.and_eq_true] at h1
      exact h1.2
    simp only []
    split
    · exact hp
    · rename_i uh heq2
      have huh : uh.all (· != '$') = true := by
        split at heq2
        · cases heq2
          exact hh
        · split at heq2
          · rename_i h1 hudb
            cases heq2
            exact hu _ _ hudb
          · cases heq2
      split
      · decide
      · unfold noDollar
        show (rstripSlashL uh ++
          rest.drop (rest.takeWhile (· != '/')).length).all (· != '$') = true
        rw [List.all_append, Bool.and_eq_true]
        exact ⟨all_ne_rstrip huh, all_ne_drop _ hrest⟩
  · exact hp

/-- A successful `Path.expanduser` result is a fixed point of
`Path.expanduser` (and keeps the no-reference property), because success
means the expansion no longer begins with `~`. -/
theorem path_expanduser_ok_fix {home : String} {udb : UserDb}
    {p y : String}
    (hp : noDollar p = true) (hh : noDollar home = true)
    (hu : ∀ u h, udb u = some h → noDollar h = true)
    (hok : path_expanduser home udb p = .ok y) :
    noDollar y = true ∧ path_expanduser home udb y = .ok y := by
  unfold path_expanduser at hok
  split at hok
  · split at hok
    · cases hok
    · rename_i hnt
      cases hok
      refine ⟨expanduser_os_noDollar home udb p hp hh hu, ?_⟩
      unfold path_expanduser
      split
      · rename_i rest2 heq2
        exact (hnt rest2 heq2).elim
      · rfl
  · rename_i hnt
    cases hok
    refine ⟨hp, ?_⟩
    unfold path_expanduser
    split
    · rename_i rest2 heq2
      exact (hnt rest2 heq2).elim
    · rfl

/-- C6 (amended): the normaliser is idempotent on inputs containing no
environment-variable reference marker, provided the home directory and
the user database entries contain none either: a successful result
normalises to itself.  (Unrestricted idempotence fails, see the
counterexample: a defined variable whose value contains another
reference is expanded further by the second pass.) -/
theorem c6_normalize_idempotent (env : EnvMap) (home : String)
    (udb : UserDb) (x y : String)
    (hx : noDollar x = true) (hh : noDollar home = true)
    (hu : ∀ u h, udb u = some h → noDollar h = true)
    (hok : _real_path env home udb x = .ok y) :
    _real_path env home udb y = .ok y := by
  unfold _real_path at hok ⊢
  rw [expandvars_no_dollar env x hx] at hok
  obtain ⟨hy, hfix⟩ := path_expanduser_ok_fix hx hh hu hok
  rw [expandvars_no_dollar env y hy]
  exact hfix

theorem c6_witness :
    noDollar "~/n" = true ∧ noDollar home0 = true ∧
    _real_path env0 home0 udb0 "~/n" = .ok "/home/u/n" ∧
    _real_path env0 home0 udb0 "/home/u/n" = .ok "/home/u/n" :=
  ⟨by decide, by decide, by decide,
   c6_normalize_idempotent env0 home0 udb0 "~/n" "/home/u/n" (by decide)
     (by decide) (fun u h hh => Option.noConfusion hh) (by decide)⟩

/-! ## C7 -/

theorem any_beq_iff {l : List String} {a : String} :
    l.any (fun x => x == a) = true ↔ a ∈ l := by
  simp [List.any_eq_true]

/-- A task that already carries two annotations with the given text. -/
def task7 : Task := { uuid := "u", annotations := ["x", "x"] }

/-- C7 counterexample: on a task that already holds two annotations whose
description equals the text, calling the mutator twice leaves two
matching annotations, not exactly one. -/
theorem c7_counterexample :
    ((add_annotation_if_missing false
        (add_annotation_if_missing false task7 "x").1 "x").1).annotations.count "x"
      = 2 ∧ (2 : Nat) ≠ 1 := by
  refine ⟨by decide, by decide⟩

/-- C7 (amended): the mutator appends only when no existing annotation's
description equals the text exactly; on a task that does not already
carry duplicate matching annotations, two calls with the same text leave
exactly one matching annotation, and the second call changes nothing
(regardless of the quiet flag). -/
theorem c7_ensure_annot_idempotent (q q' : Bool) (task : Task)
    (text : String) (h : task.annotations.count text ≤ 1) :
    add_annotation_if_missing q'
        (add_annotation_if_missing q task text).1 text
      = ((add_annotation_if_missing q task text).1, []) ∧
    (add_annotation_if_missing q task text).1.annotations.count text = 1 := by
  by_cases hmem : text ∈ task.annotations
  · have hany : task.annotations.any (fun x => x == text) = true :=
      any_beq_iff.mpr hmem
    have hcnt : task.annotations.count text = 1 := by
      have := List.count_pos_iff.mpr hmem
      omega
    constructor
    · simp [add_annotation_if_missing, hany]
    · simp [add_annotation_if_missing, hany, hcnt]
  · have hany : task.annotations.any (fun x => x == text) = false := by
      rw [← Bool.not_eq_true]
      intro hx
      exact hmem (any_beq_iff.mp hx)
    have hcnt : task.annotations.count text = 0 :=
      List.count_eq_zero.mpr hmem
    have hmem2 : text ∈ task.annotations ++ [text] := by simp
    have hany2 : (task.annotations ++ [text]).any (fun x => x == text)
        = true := any_beq_iff.mpr hmem2
    constructor
    · simp [add_annotation_if_missing, hany, hany2]
    · simp [add_annotation_if_missing, hany, hany2, List.count_append, hcnt]

theorem c7_witness :
    task0.annotations.count "Note" ≤ 1 ∧
    (add_annotation_if_missing false task0 "Note").1.annotations.count "Note"
      = 1 :=
  ⟨by decide,
   (c7_ensure_annot_idempotent false false task0 "Note" (by decide)).2⟩

/-! ## C8 -/

/-- C8: when neither the id lookup nor the uuid fallback finds a task, the
uncaught `Task.DoesNotExist` ends the run with a non-zero status and a
traceback on the error stream; no editor is launched and no annotation is
added (hence no note file is touched). -/
theorem c8_not_found_no_side_effects (env : EnvMap) (home : String)
    (udb : UserDb) (fs : FileSys) (tw : TaskDb) (cli : CliArgs)
    (cfg : TConf)
    (hc : mainConf env home udb fs cli = .ok cfg)
    (h1 : tw.byId cfg.task_id = Option.none)
    (h2 : tw.byUuid cfg.task_id = Option.none) :
    (mainRun env home udb fs tw cli).2 = .raised .doesNotExist ∧
    exitStatusOf (mainRun env home udb fs tw cli).2 ≠ 0 ∧
    reportsError (mainRun env home udb fs tw cli).1
      (mainRun env home udb fs tw cli).2 = true ∧
    (mainRun env home udb fs tw cli).1.editorCmd = Option.none ∧
    (mainRun env home udb fs tw cli).1.annotAdded = Option.none := by
  have hg : get_task tw cfg.task_id = .error .doesNotExist := by
    unfold get_task
    rw [h1, h2]
  refine ⟨?_, ?_, ?_, ?_, ?_⟩ <;>
    simp [mainRun, hc, mainRest, hg, exitStatusOf, reportsError, emptyTrace]

theorem c8_witness :
    mainConf env0 home0 udb0 fs0 cli0 = .ok cfgA ∧
    twEmpty.byId cfgA.task_id = Option.none ∧
    twEmpty.byUuid cfgA.task_id = Option.none ∧
    (mainRun env0 home0 udb0 fs0 twEmpty cli0).2 = .raised .doesNotExist :=
  ⟨by decide, rfl, rfl,
   (c8_not_found_no_side_effects env0 home0 udb0 fs0 twEmpty cli0 cfgA
     (by decide) rfl rfl).1⟩

/-! ## C9 -/

/-- C9: with the quiet flag set the feedback sink emits nothing, for every
text; and the error-stream writes of the post-configuration run never
depend on the quiet flag, so error messages are never suppressed. -/
theorem c9_quiet_gate :
    (∀ text : String, whisper true text = []) ∧
    (∀ (tw : TaskDb) (cfg : TConf) (q : Bool),
      (mainRest tw cfg q).1.stderr = (mainRest tw cfg true).1.stderr) := by
  constructor
  · intro text; rfl
  · intro tw cfg q
    unfold mainRest
    cases get_task tw cfg.task_id with
    | error e => rfl
    | ok task =>
      by_cases hu : task.uuid = ""
      · simp [hu]
      · simp [hu]

/-! ## C10 -/

theorem oE_none_right (a : Option PyVal) : oE a Option.none = a := by
  cases a <;> rfl

/-- C10: each tier reader yields only truthy values (falsy raw values are
omitted entirely), an option explicitly supplied as the empty string is
indistinguishable from an absent one — in particular an empty positional
id disappears — and a lower-precedence tier's value then prevails in the
override merge. -/
theorem c10_tiers_truthy :
    (∀ (cli : CliArgs) (k : String) (v : PyVal),
        parse_cli cli k = some v → pyTruthy v = true) ∧
    (∀ (env : EnvMap) (k : String) (v : PyVal),
        parse_env env k = some v → pyTruthy v = true) ∧
    (∀ (env : EnvMap) (file : ConfFile) (d : Dict) (k : String) (v : PyVal),
        parse_conf env file = .ok d → d k = some v → pyTruthy v = true) ∧
    (∀ (cli : CliArgs) (k : String),
        parse_cli { cli with extension := some "" } k
          = parse_cli { cli with extension := Option.none } k) ∧
    (∀ cli : CliArgs, cli.id = "" →
        parse_cli cli "task.id" = Option.none) ∧
    (∀ (env : EnvMap) (cli : CliArgs),
        opts_override env { cli with extension := some "" } "notes.ext"
          = parse_env env "notes.ext") := by
  refine ⟨?_, ?_, ?_, ?_, ?_, ?_⟩
  · intro cli k v h
    exact filtered_some h
  · intro env k v h
    exact filtered_some h
  · intro env file d k v hok h
    obtain ⟨td, htd, rfl⟩ := parse_conf_ok_inv hok
    exact filtered_some h
  · intro cli k
    simp only [parse_cli, _filtered_dict, mkDict, List.lookup]
    repeat' split
    all_goals rfl
  · intro cli h
    exact parse_cli_taskid_empty cli h
  · intro env cli
    rw [opts_override_eq]
    show oE (parse_cli { cli with extension := some "" } "notes.ext")
      (oE (parse_env env "notes.ext") (seedDict env "notes.ext")) = _
    have h1 : parse_cli { cli with extension := some "" } "notes.ext"
        = Option.none := by
      simp [parse_cli, _filtered_dict, mkDict, List.lookup, filt,
        pyTruthy, optStr]
    rw [h1, seedDict_notRc env _ (by decide), oE_none_left, oE_none_right]

theorem c10_witness :
    parse_cli cli0 "task.id" = some (.str "7") ∧
    pyTruthy (.str "7") = true :=
  ⟨by decide, (c10_tiers_truthy).1 cli0 "task.id" (.str "7") (by decide)⟩

end Topen
